import Mathlib

/-!
Formal model of the PRISMA Procurement core (supplier search, ranking,
split planning, pricing, emissions, route quality, response cache),
translated from `src/core/utils.py`, `src/core/cache.py` and
`src/routes/suppliers.py`.

Numbers are modelled as exact rationals (`ℚ`); Python's `round(x, n)`
(banker's rounding, ties to even) is modelled by `roundHalfEven` /
`round2`.  Randomized inputs (the sampled jitter factor, request ids)
and the clock are passed as explicit parameters, the filesystem as an
injected function, matching the collaborator contracts.  The haversine
distance is modelled over `ℝ` at the end of the definition section.
-/

namespace Procurement

/-! ## Rounding (Python `round`) -/

/-- Python's `round` to the nearest integer, ties to even (banker's rounding). -/
def roundHalfEven (q : ℚ) : ℤ :=
  if q - ⌊q⌋ < 1/2 then ⌊q⌋
  else if 1/2 < q - ⌊q⌋ then ⌊q⌋ + 1
  else if ⌊q⌋ % 2 = 0 then ⌊q⌋ else ⌊q⌋ + 1

/-- Python's `round(x, 2)`: round to 2 decimal places, ties to even. -/
def round2 (q : ℚ) : ℚ := (roundHalfEven (100 * q) : ℚ) / 100

/-- Python's `round(x, 4)` (used for the cache-key coordinates). -/
def round4 (q : ℚ) : ℚ := (roundHalfEven (10000 * q) : ℚ) / 10000

/-- Python's `int()` applied to a rational: truncation toward zero. -/
def pyInt (q : ℚ) : ℤ := if q < 0 then -⌊-q⌋ else ⌊q⌋

/-- `q` is an exact number of hundredths (so `round2` leaves it unchanged). -/
def IsCent (q : ℚ) : Prop := ∃ n : ℤ, q = (n : ℚ) / 100

/-! ## Supplier records

A supplier record is a Python dict; numeric fields read with
`.get(key, default)` may be absent, so they are `Option ℚ`
(`none` = key absent). -/

structure Supplier where
  supplier_id : String
  name : String
  latitude : ℚ
  longitude : ℚ
  stock_tons : Option ℚ
  price_inr_per_ton : Option ℚ
  lead_time_days : Option ℚ
  distance_km : Option ℚ
deriving DecidableEq

/-- `supplier.get("stock_tons", 0)` -/
def Supplier.stockD (s : Supplier) : ℚ := s.stock_tons.getD 0

/-- `supplier.get("price_inr_per_ton", 0)` -/
def Supplier.priceD (s : Supplier) : ℚ := s.price_inr_per_ton.getD 0

/-! ## PricingEngine / EmissionsEstimator (`src/core/utils.py`) -/

/-- `CO2_EMISSION_FACTOR = 0.06` (kg CO2 per ton-km). -/
def CO2_EMISSION_FACTOR : ℚ := 6/100

/-- `apply_price_jitter`: the sampled `random.uniform(min_factor, max_factor)`
value is passed in explicitly as `jitter`; the code returns
`round(base_price * jitter, 2)`. -/
def apply_price_jitter (base_price jitter : ℚ) : ℚ :=
  round2 (base_price * jitter)

/-- `calculate_co2_emissions(quantity_tons, distance_km)`:
`round(quantity_tons * distance_km * CO2_EMISSION_FACTOR, 2)`. -/
def calculate_co2_emissions (quantity_tons distance_km : ℚ) : ℚ :=
  round2 (quantity_tons * distance_km * CO2_EMISSION_FACTOR)

/-! ## Route-ETA endpoint pieces (`src/routes/suppliers.py`, `calculate_route_eta`) -/

/-- The CO2 branch of `calculate_route_eta`: `if request.quantity_tons:` uses the
given quantity, otherwise (absent **or zero**, by Python truthiness) a default
of 10 tons. -/
def route_co2 (quantity_tons : Option ℚ) (distance_km : ℚ) : ℚ :=
  if quantity_tons.getD 0 ≠ 0 then
    calculate_co2_emissions (quantity_tons.getD 0) distance_km
  else
    calculate_co2_emissions 10 distance_km

/-- The route-quality classification of `calculate_route_eta`. -/
def routeQuality (distance : ℚ) : String :=
  if distance < 10 then "optimal"
  else if distance < 30 then "good"
  else "fair"

/-! ## RankingEngine (`src/core/utils.py`) -/

/-- `s.get(criterion, float('inf'))`: a present value is itself, an absent
value is `+∞`. -/
def toTop (a : Option ℚ) : WithTop ℚ :=
  match a with
  | some x => (x : WithTop ℚ)
  | none => ⊤

/-- The sort key of `rank_suppliers` with the default criteria:
the tuple `(distance_km, price_inr_per_ton, lead_time_days)` compared
lexicographically, missing entries as `+∞`. -/
def rankKey (s : Supplier) : Lex (WithTop ℚ × Lex (WithTop ℚ × WithTop ℚ)) :=
  toLex (toTop s.distance_km, toLex (toTop s.price_inr_per_ton, toTop s.lead_time_days))

/-- Boolean comparator for the stable sort. -/
def keyLE (a b : Supplier) : Bool := decide (rankKey a ≤ rankKey b)

/-- `rank_suppliers` (with the default criteria): Python's `sorted` is a
stable sort by the key tuple, modelled by `List.mergeSort`. -/
def rank_suppliers (suppliers : List Supplier) : List Supplier :=
  if suppliers.isEmpty then [] else suppliers.mergeSort keyLE

/-- `filter_eligible_suppliers`: keep suppliers with
`s.get("stock_tons", 0) >= required_quantity`. -/
def filter_eligible_suppliers (suppliers : List Supplier) (required_quantity : ℚ) :
    List Supplier :=
  suppliers.filter (fun s => decide (required_quantity ≤ s.stockD))

/-- One allocation of `create_split_plan`: `supplier.copy()` plus the
`allocated_tons` and `estimated_cost_inr` keys. -/
structure SplitEntry where
  supplier : Supplier
  allocated_tons : ℚ
  estimated_cost_inr : ℚ
deriving DecidableEq

/-- The loop of `create_split_plan` over the (at most 3) leading suppliers,
with the running `remaining` quantity. -/
def splitPlanAux : List Supplier → ℚ → List SplitEntry
  | [], _ => []
  | s :: rest, remaining =>
    let available := s.stockD
    if available ≤ 0 then splitPlanAux rest remaining
    else
      let allocation := min available remaining
      if 0 < allocation then
        let entry : SplitEntry :=
          ⟨s, round2 allocation, round2 (allocation * s.priceD)⟩
        if remaining - allocation ≤ 0 then [entry]
        else entry :: splitPlanAux rest (remaining - allocation)
      else
        if remaining ≤ 0 then [] else splitPlanAux rest remaining

/-- `create_split_plan(suppliers, required_quantity)`: walk `suppliers[:3]`. -/
def create_split_plan (suppliers : List Supplier) (required_quantity : ℚ) :
    List SplitEntry :=
  splitPlanAux (suppliers.take 3) required_quantity

/-! ## ResponseCache (`src/core/cache.py`, `CacheManager`)

The SHA-256 key derivation is injective up to hash collisions; the store is
modelled as an association list keyed directly by the (decidably equal)
canonical parameter tuple.  Timestamps are rationals counting seconds. -/

structure CacheEntry (α : Type) where
  data : α
  cached_at : ℚ
  expiry : ℚ

/-- The dict returned by `CacheManager.get` on a hit. -/
structure CacheHit (α : Type) where
  data : α
  cached_at : ℚ
  age_seconds : ℤ
  cache_hit : Bool

abbrev CacheMap (κ : Type) (α : Type) := List (κ × CacheEntry α)

/-- Remove the binding of key `k` (Python `del self._cache[cache_key]`). -/
def eraseKey {κ α : Type} [DecidableEq κ] (c : CacheMap κ α) (k : κ) : CacheMap κ α :=
  c.filter (fun p => decide (p.1 ≠ k))

/-- `CacheManager.get` at clock time `now`: a miss if absent; an entry past
its expiry is deleted on read and reported as a miss; otherwise a hit with
`age_seconds = int(now - cached_at)`.  Returns the possibly-mutated store. -/
def cacheGet {κ α : Type} [DecidableEq κ] (now : ℚ) (c : CacheMap κ α) (k : κ) :
    Option (CacheHit α) × CacheMap κ α :=
  match c.lookup k with
  | none => (none, c)
  | some e =>
    if e.expiry < now then (none, eraseKey c k)
    else (some ⟨e.data, e.cached_at, pyInt (now - e.cached_at), true⟩, c)

/-- `CacheManager.set` at clock time `now`: `ttl_hours` falsy (absent or 0)
falls back to the default TTL; the new entry overwrites any existing binding. -/
def cacheSet {κ α : Type} [DecidableEq κ] (default_ttl_hours : ℚ) (now : ℚ)
    (data : α) (ttl_hours : Option ℚ) (c : CacheMap κ α) (k : κ) : CacheMap κ α :=
  let ttl_seconds :=
    match ttl_hours with
    | some h => if h = 0 then default_ttl_hours * 3600 else h * 3600
    | none => default_ttl_hours * 3600
  (k, ⟨data, now, now + ttl_seconds⟩) :: eraseKey c k

/-! ## SupplierCatalog (`load_supplier_data` and `MATERIAL_FILE_MAP`) -/

def MATERIAL_FILE_MAP : List (String × String) :=
  [("cement_opc_53", "cement_suppliers_mock.json"),
   ("cement", "cement_suppliers_mock.json"),
   ("sand_river", "sand_suppliers_mock.json"),
   ("sand", "sand_suppliers_mock.json"),
   ("aggregate_20mm", "aggregate_suppliers_mock.json"),
   ("aggregate", "aggregate_suppliers_mock.json"),
   ("gravel", "aggregate_suppliers_mock.json"),
   ("bricks_red", "bricks_suppliers_mock.json"),
   ("bricks", "bricks_suppliers_mock.json")]

/-- Python's `str.lower()`, character by character (the material ids in play
are ASCII; this is extensionally `String.toLower`, stated over the character
list so that it evaluates). -/
def pyLower (s : String) : String := String.mk (s.data.map Char.toLower)

/-- The `suppliers` list of a per-material data file. -/
abbrev CatalogData := List Supplier

/-- Result of reading and JSON-decoding a data file (injected filesystem). -/
inductive FileResult
  | missing
  | corrupt (msg : String)
  | ok (data : CatalogData)

/-- The error kinds raised on the search path, mirroring the Python
exception types. -/
inductive SearchError
  | materialNotFound (msg : String)
  | dataFileMissing (path : String)
  | dataCorrupt (msg : String)
deriving DecidableEq

/-- The HTTP status assigned to each error by the handlers at the end of
`search_suppliers`: `ValueError → 400`, `FileNotFoundError → 404`. -/
def SearchError.status : SearchError → ℕ
  | materialNotFound _ => 400
  | dataFileMissing _ => 404
  | dataCorrupt _ => 400

/-- `load_supplier_data(material_id)` with the module-level data cache
passed (and returned) explicitly.  Unknown materials raise
`ValueError("Unknown material_id: ...")`. -/
def load_supplier_data (files : String → FileResult)
    (dataCache : List (String × CatalogData)) (material_id : String) :
    Except SearchError (CatalogData × List (String × CatalogData)) :=
  let material_key := pyLower material_id
  match dataCache.lookup material_key with
  | some data => .ok (data, dataCache)
  | none =>
    match MATERIAL_FILE_MAP.lookup material_key with
    | none => .error (.materialNotFound ("Unknown material_id: " ++ material_id))
    | some filename =>
      match files filename with
      | .missing => .error (.dataFileMissing filename)
      | .corrupt msg => .error (.dataCorrupt msg)
      | .ok data => .ok (data, (material_key, data) :: dataCache)

/-! ## Search operation (`src/routes/suppliers.py`, `search_suppliers`) -/

structure Origin where
  latitude : ℚ
  longitude : ℚ
deriving DecidableEq

structure SearchRequest where
  origin : Origin
  material : String
  quantity_tons : ℚ
deriving DecidableEq

/-- The canonical cache-key parameters built in `search_suppliers`. -/
structure SearchKey where
  endpoint : String
  material : String
  lat : ℚ
  lon : ℚ
  qty : ℚ
deriving DecidableEq

def searchCacheKey (req : SearchRequest) : SearchKey :=
  { endpoint := "suppliers_search"
    material := req.material
    lat := round4 req.origin.latitude
    lon := round4 req.origin.longitude
    qty := req.quantity_tons }

structure Provenance where
  provider : String
  cache : Bool
  cache_age_seconds : Option ℤ
  request_id : String
  generated_at : ℚ
  sources : List String
deriving DecidableEq

/-- `recommended` is either the best eligible supplier, or the first split
allocation (`Supplier(**split_plan[0])`). -/
inductive Recommendation
  | single (s : Supplier)
  | split (e : SplitEntry)
deriving DecidableEq

structure SupplierBundle where
  origin : Origin
  material : String
  quantity_tons : ℚ
  suppliers : List Supplier
  recommended : Option Recommendation
  ranking_criteria : List String
  provenance : Provenance
deriving DecidableEq

/-- The cache-miss branch of `search_suppliers` (executed when the response
cache missed or `USE_MOCK` is false): load, enrich with distances (`dist` is
the injected haversine), rank, filter, recommend or split, then store in
the response cache.  Returns (result, response cache, data cache). -/
def search_suppliers_miss (dist : ℚ → ℚ → ℚ → ℚ → ℚ)
    (request_id provider : String) (cache_ttl_hours default_ttl_hours now : ℚ)
    (files : String → FileResult) (dataCache : List (String × CatalogData))
    (respCache : CacheMap SearchKey SupplierBundle) (req : SearchRequest) :
    Except SearchError SupplierBundle × CacheMap SearchKey SupplierBundle ×
      List (String × CatalogData) :=
  match load_supplier_data files dataCache req.material with
  | .error e => (.error e, respCache, dataCache)
  | .ok (data, dataCache2) =>
    let enriched := data.map (fun s =>
      let d := dist req.origin.latitude req.origin.longitude s.latitude s.longitude
      { s with distance_km := some d })
    let ranked := rank_suppliers enriched
    let eligible := filter_eligible_suppliers ranked req.quantity_tons
    let recommended : Option Recommendation :=
      match eligible with
      | e :: _ => some (.single e)
      | [] =>
        match ranked, create_split_plan ranked req.quantity_tons with
        | _ :: _, p :: _ => some (.split p)
        | _, _ => none
    let bundle : SupplierBundle :=
      { origin := req.origin
        material := req.material
        quantity_tons := req.quantity_tons
        suppliers := ranked
        recommended := recommended
        ranking_criteria := ["distance", "price", "lead_time"]
        provenance :=
          { provider := provider
            cache := false
            cache_age_seconds := none
            request_id := request_id
            generated_at := now
            sources := ["mock-suppliers-db", "haversine-distance-calc"] } }
    let respCache2 :=
      cacheSet default_ttl_hours now bundle (some cache_ttl_hours) respCache
        (searchCacheKey req)
    (.ok bundle, respCache2, dataCache2)

/-- `search_suppliers`: consult the response cache first; on a usable hit
return the cached bundle with refreshed provenance, otherwise run the miss
branch on the post-`get` cache state. -/
def search_suppliers (dist : ℚ → ℚ → ℚ → ℚ → ℚ) (useMock : Bool)
    (request_id provider : String) (cache_ttl_hours default_ttl_hours now : ℚ)
    (files : String → FileResult) (dataCache : List (String × CatalogData))
    (respCache : CacheMap SearchKey SupplierBundle) (req : SearchRequest) :
    Except SearchError SupplierBundle × CacheMap SearchKey SupplierBundle ×
      List (String × CatalogData) :=
  let key := searchCacheKey req
  let got := cacheGet now respCache key
  match got.1 with
  | some hit =>
    if useMock then
      let prov2 : Provenance :=
        { hit.data.provenance with
            cache := true
            cache_age_seconds := some hit.age_seconds
            request_id := request_id }
      (.ok { hit.data with provenance := prov2 }, got.2, dataCache)
    else
      search_suppliers_miss dist request_id provider cache_ttl_hours
        default_ttl_hours now files dataCache got.2 req
  | none =>
    search_suppliers_miss dist request_id provider cache_ttl_hours
      default_ttl_hours now files dataCache got.2 req

/-! ## GeoMath (`haversine_distance`), over `ℝ` -/

noncomputable section

/-- `math.radians`: degrees to radians. -/
def radians (x : ℝ) : ℝ := x * (Real.pi / 180)

/-- `math.atan2(y, x)`: four-quadrant arctangent. -/
def atan2 (y x : ℝ) : ℝ :=
  if 0 < x then Real.arctan (y / x)
  else if x < 0 then
    (if 0 ≤ y then Real.arctan (y / x) + Real.pi else Real.arctan (y / x) - Real.pi)
  else
    (if 0 < y then Real.pi / 2 else if y < 0 then -(Real.pi / 2) else 0)

/-- Python `round` to nearest integer, ties to even, over `ℝ`. -/
def roundHalfEvenR (x : ℝ) : ℤ :=
  if x - ⌊x⌋ < 1/2 then ⌊x⌋
  else if 1/2 < x - ⌊x⌋ then ⌊x⌋ + 1
  else if ⌊x⌋ % 2 = 0 then ⌊x⌋ else ⌊x⌋ + 1

/-- Python `round(x, 2)` over `ℝ`. -/
def round2R (x : ℝ) : ℝ := (roundHalfEvenR (100 * x) : ℝ) / 100

def EARTH_RADIUS_KM : ℝ := 6371

/-- `haversine_distance(lat1, lon1, lat2, lon2)` from `src/core/utils.py`. -/
def haversine_distance (lat1 lon1 lat2 lon2 : ℝ) : ℝ :=
  let lat1_rad := radians lat1
  let lat2_rad := radians lat2
  let delta_lat := radians (lat2 - lat1)
  let delta_lon := radians (lon2 - lon1)
  let sin_dlat_2 := Real.sin (delta_lat / 2)
  let sin_dlon_2 := Real.sin (delta_lon / 2)
  let a := sin_dlat_2 * sin_dlat_2 +
    Real.cos lat1_rad * Real.cos lat2_rad * sin_dlon_2 * sin_dlon_2
  let c := 2 * atan2 (Real.sqrt a) (Real.sqrt (1 - a))
  round2R (EARTH_RADIUS_KM * c)

end

/-! ## Helper lemmas on rounding -/

theorem roundHalfEven_intCast (n : ℤ) : roundHalfEven (n : ℚ) = n := by
  simp [roundHalfEven]

theorem abs_roundHalfEven_sub (q : ℚ) : |(roundHalfEven q : ℚ) - q| ≤ 1/2 := by
  have hfl : (⌊q⌋ : ℚ) ≤ q := Int.floor_le q
  have hfu : q < ⌊q⌋ + 1 := Int.lt_floor_add_one q
  unfold roundHalfEven
  split
  · rw [abs_le]
    constructor <;> linarith
  · split
    · rw [abs_le]
      push_cast
      constructor <;> linarith
    · split
      · rw [abs_le]
        constructor <;> linarith
      · rw [abs_le]
        push_cast
        constructor <;> linarith

theorem abs_round2_sub (q : ℚ) : |round2 q - q| ≤ 1/200 := by
  have h := abs_roundHalfEven_sub (100 * q)
  unfold round2
  have heq : (roundHalfEven (100 * q) : ℚ) / 100 - q
      = ((roundHalfEven (100 * q) : ℚ) - 100 * q) / 100 := by ring
  rw [heq, abs_div]
  rw [show |(100 : ℚ)| = 100 by norm_num]
  linarith

theorem round2_of_isCent {q : ℚ} (h : IsCent q) : round2 q = q := by
  obtain ⟨n, rfl⟩ := h
  unfold round2
  rw [show (100 : ℚ) * ((n : ℚ) / 100) = (n : ℚ) by ring]
  rw [roundHalfEven_intCast]

theorem one_le_roundHalfEven {q : ℚ} (h : 1/2 < q) : 1 ≤ roundHalfEven q := by
  have hfl : (⌊q⌋ : ℚ) ≤ q := Int.floor_le q
  have hfu : q < ⌊q⌋ + 1 := Int.lt_floor_add_one q
  have hge0 : (0 : ℤ) ≤ ⌊q⌋ := by
    by_contra hc
    push_neg at hc
    have : (⌊q⌋ : ℚ) ≤ -1 := by exact_mod_cast Int.le_sub_one_of_lt hc
    linarith
  unfold roundHalfEven
  split
  · rename_i h1
    by_contra hc
    push_neg at hc
    have h0 : ⌊q⌋ = 0 := le_antisymm (by omega) hge0
    rw [h0] at h1
    push_cast at h1
    linarith
  · split
    · omega
    · split
      · rename_i h1 h2 h3
        by_contra hc
        push_neg at hc
        have h0 : ⌊q⌋ = 0 := le_antisymm (by omega) hge0
        rw [h0] at h1 h2
        push_cast at h1 h2
        linarith
      · omega

theorem isCent_sub {a b : ℚ} (ha : IsCent a) (hb : IsCent b) : IsCent (a - b) := by
  obtain ⟨m, rfl⟩ := ha
  obtain ⟨n, rfl⟩ := hb
  exact ⟨m - n, by push_cast; ring⟩

theorem isCent_min {a b : ℚ} (ha : IsCent a) (hb : IsCent b) : IsCent (min a b) := by
  rcases min_cases a b with ⟨h, _⟩ | ⟨h, _⟩ <;> rw [h] <;> assumption

/-! ## Claim C6 — price jitter bounds -/

/-- **C6** (counterexample): at base price `0.003` and sampled factor `1`
(which lies in `[0.99, 1.02]`), `apply_price_jitter` returns `0.0`, which is
strictly below the claimed lower bound `base × 0.99 = 0.00297` — rounding to
cents can leave the claimed interval. -/
theorem c6_counterexample :
    apply_price_jitter (3/1000) 1 = 0 ∧
    (0 : ℚ) ≤ 3/1000 ∧ (99/100 : ℚ) ≤ 1 ∧ (1 : ℚ) ≤ 102/100 ∧
    apply_price_jitter (3/1000) 1 < (3/1000 : ℚ) * (99/100) := by
  norm_num [apply_price_jitter, round2, roundHalfEven]

/-- **C6** (amended): for every nonnegative base price and factor in
`[0.99, 1.02]`, the jittered price lies in the interval
`[base × 0.99, base × 1.02]` widened by the half-cent rounding error:
`base×0.99 − 0.005 ≤ result ≤ base×1.02 + 0.005`. -/
theorem c6_price_jitter_within_half_cent (base factor : ℚ) (hb : 0 ≤ base)
    (h1 : 99/100 ≤ factor) (h2 : factor ≤ 102/100) :
    base * (99/100) - 1/200 ≤ apply_price_jitter base factor ∧
    apply_price_jitter base factor ≤ base * (102/100) + 1/200 := by
  have h := abs_round2_sub (base * factor)
  rw [abs_le] at h
  have hl : base * (99/100) ≤ base * factor := by nlinarith
  have hu : base * factor ≤ base * (102/100) := by nlinarith
  unfold apply_price_jitter
  constructor <;> linarith [h.1, h.2]

theorem c6_witness :
    ((0 : ℚ) ≤ 100 ∧ (99/100 : ℚ) ≤ 1 ∧ (1 : ℚ) ≤ 102/100) ∧
    ((100 : ℚ) * (99/100) - 1/200 ≤ apply_price_jitter 100 1 ∧
      apply_price_jitter 100 1 ≤ (100 : ℚ) * (102/100) + 1/200) :=
  ⟨⟨by norm_num, by norm_num, by norm_num⟩,
    c6_price_jitter_within_half_cent 100 1 (by norm_num) (by norm_num) (by norm_num)⟩

/-! ## Claim C7 — route CO2 formula -/

/-- **C7** (counterexample): the claim says the route-ETA operation uses the
request's quantity whenever one is provided; but for a provided quantity of
`0` tons over `100` km the code computes with the 10-ton default
(`co2_kg = 60`), not with `0` tons (which would give `0`). -/
theorem c7_counterexample :
    route_co2 (some 0) 100 = 60 ∧
    round2 ((0 : ℚ) * 100 * CO2_EMISSION_FACTOR) = 0 ∧
    route_co2 (some 0) 100 ≠ round2 ((0 : ℚ) * 100 * CO2_EMISSION_FACTOR) := by
  norm_num [route_co2, calculate_co2_emissions, CO2_EMISSION_FACTOR, round2,
    roundHalfEven]

/-- **C7** (amended): the route-ETA operation computes
`co2_kg = round(quantityTons × distanceKm × 0.06, 2)`, using the request's
quantity when it is provided **and nonzero**, and the documented default of
10 tons when the quantity is omitted; for 10 tons over 100 km the result is
exactly 60.0 kg. -/
theorem c7_route_co2_formula (q d : ℚ) (hq : q ≠ 0) :
    route_co2 (some q) d = round2 (q * d * (6/100)) ∧
    route_co2 none d = round2 (10 * d * (6/100)) ∧
    route_co2 (some 10) 100 = 60 := by
  refine ⟨?_, ?_, ?_⟩
  · simp [route_co2, calculate_co2_emissions, CO2_EMISSION_FACTOR, hq]
  · simp [route_co2, calculate_co2_emissions, CO2_EMISSION_FACTOR]
  · norm_num [route_co2, calculate_co2_emissions, CO2_EMISSION_FACTOR, round2,
      roundHalfEven]

theorem c7_witness :
    (5 : ℚ) ≠ 0 ∧
    (route_co2 (some 5) 100 = round2 ((5 : ℚ) * 100 * (6/100)) ∧
      route_co2 none 100 = round2 ((10 : ℚ) * 100 * (6/100)) ∧
      route_co2 (some 10) 100 = 60) :=
  ⟨by norm_num, c7_route_co2_formula 5 100 (by norm_num)⟩

/-! ## Claim C8 — route-quality classification -/

/-- **C8**: `calculate_route_eta` classifies `route_quality` as `"optimal"`
for distance `< 10` km, `"good"` for `10 ≤ distance < 30` km and `"fair"`
for distance `≥ 30` km; at the boundaries, distance exactly `10.0` gives
`"good"` and distance exactly `30.0` gives `"fair"`. -/
theorem c8_route_quality_boundaries (d : ℚ) :
    (d < 10 → routeQuality d = "optimal") ∧
    (10 ≤ d → d < 30 → routeQuality d = "good") ∧
    (30 ≤ d → routeQuality d = "fair") ∧
    routeQuality 10 = "good" ∧ routeQuality 30 = "fair" := by
  refine ⟨?_, ?_, ?_, ?_, ?_⟩
  · intro h
    simp [routeQuality, h]
  · intro h1 h2
    simp [routeQuality, not_lt.mpr h1, h2]
  · intro h
    have h1 : ¬ d < 10 := by linarith
    have h2 : ¬ d < 30 := by linarith
    simp [routeQuality, h1, h2]
  · norm_num [routeQuality]
  · norm_num [routeQuality]

theorem c8_witness :
    ((5 : ℚ) < 10 ∧ routeQuality 5 = "optimal") ∧
    (((10 : ℚ) ≤ 10 ∧ (10 : ℚ) < 30) ∧ routeQuality 10 = "good") ∧
    ((30 : ℚ) ≤ 30 ∧ routeQuality 30 = "fair") :=
  ⟨⟨by norm_num, (c8_route_quality_boundaries 5).1 (by norm_num)⟩,
    ⟨⟨by norm_num, by norm_num⟩,
      (c8_route_quality_boundaries 10).2.1 (by norm_num) (by norm_num)⟩,
    ⟨by norm_num, (c8_route_quality_boundaries 30).2.2.1 (by norm_num)⟩⟩

/-! ## Claim C10 — zero quantity treated as omitted -/

/-- **C10**: in the route-ETA operation a provided quantity of `0` tons is
treated exactly like an omitted quantity (the code branches on truthiness):
the CO2 estimate uses the 10-ton default, so `co2_kg = round(10 × d × 0.06, 2)`,
and it is nonzero whenever the (already rounded) distance is above zero. -/
theorem c10_zero_quantity_uses_default (d raw : ℚ) :
    route_co2 (some 0) d = round2 (10 * d * (6/100)) ∧
    route_co2 (some 0) d = route_co2 none d ∧
    (0 < round2 raw → route_co2 (some 0) (round2 raw) ≠ 0) := by
  refine ⟨?_, ?_, ?_⟩
  · simp [route_co2, calculate_co2_emissions, CO2_EMISSION_FACTOR]
  · simp [route_co2]
  · intro hpos
    have h1 : route_co2 (some 0) (round2 raw) = round2 (10 * round2 raw * (6/100)) := by
      simp [route_co2, calculate_co2_emissions, CO2_EMISSION_FACTOR]
    rw [h1]
    have hr2 : round2 raw = ((roundHalfEven (100 * raw) : ℤ) : ℚ) / 100 := rfl
    set m : ℤ := roundHalfEven (100 * raw) with hm
    rw [hr2] at hpos
    have hmpos : (0 : ℚ) < (m : ℚ) := by
      by_contra hc
      push_neg at hc
      have : (m : ℚ) / 100 ≤ 0 := by linarith
      linarith
    have hm0 : (0 : ℤ) < m := by exact_mod_cast hmpos
    have hm1 : (1 : ℤ) ≤ m := by omega
    have hm1q : (1 : ℚ) ≤ (m : ℚ) := by exact_mod_cast hm1
    rw [hr2]
    rw [show (10 : ℚ) * ((m : ℚ)/100) * (6/100) = 3 * (m : ℚ) / 500 from by ring]
    unfold round2
    rw [show (100 : ℚ) * (3 * (m : ℚ) / 500) = 3 * (m : ℚ) / 5 from by ring]
    have hhalf : (1 : ℚ)/2 < 3 * (m : ℚ) / 5 := by linarith
    have hge1 : (1 : ℤ) ≤ roundHalfEven (3 * (m : ℚ) / 5) := one_le_roundHalfEven hhalf
    have hge1q : (1 : ℚ) ≤ (roundHalfEven (3 * (m : ℚ) / 5) : ℚ) := by exact_mod_cast hge1
    have : (0 : ℚ) < (roundHalfEven (3 * (m : ℚ) / 5) : ℚ) / 100 := by linarith
    exact ne_of_gt this

theorem c10_witness :
    ((0 : ℚ) < round2 1) ∧ route_co2 (some 0) (round2 1) ≠ 0 ∧
    route_co2 (some 0) 2 = round2 ((10 : ℚ) * 2 * (6/100)) :=
  ⟨by norm_num [round2, roundHalfEven],
    (c10_zero_quantity_uses_default 2 1).2.2 (by norm_num [round2, roundHalfEven]),
    (c10_zero_quantity_uses_default 2 1).1⟩

/-! ## Claim C4 — stock filter -/

/-- **C4**: `filter_eligible_suppliers` returns exactly the subsequence of
suppliers whose stock (`.get("stock_tons", 0)`) is at least the required
quantity, preserving the input order: it is a sublist of the input, every
returned supplier has sufficient stock (none has `stock < required`), every
input supplier with sufficient stock is kept (with its multiplicity), and
insufficient ones are absent. -/
theorem c4_filter_eligible (l : List Supplier) (q : ℚ) :
    (filter_eligible_suppliers l q).Sublist l ∧
    (∀ s ∈ filter_eligible_suppliers l q, q ≤ s.stockD) ∧
    (∀ s ∈ l, q ≤ s.stockD → s ∈ filter_eligible_suppliers l q) ∧
    (∀ s, q ≤ s.stockD →
      (filter_eligible_suppliers l q).count s = l.count s) ∧
    (∀ s, s.stockD < q → (filter_eligible_suppliers l q).count s = 0) := by
  refine ⟨List.filter_sublist l, ?_, ?_, ?_, ?_⟩
  · intro s hs
    have := List.of_mem_filter hs
    simpa using this
  · intro s hs hq
    exact List.mem_filter.mpr ⟨hs, by simpa using hq⟩
  · intro s hq
    exact List.count_filter (by simpa using hq)
  · intro s hq
    rw [List.count_eq_zero]
    intro hmem
    have := List.of_mem_filter hmem
    simp only [decide_eq_true_eq] at this
    linarith

theorem c4_witness :
    ((⟨"s1", "A", 0, 0, some 5, none, none, none⟩ : Supplier) ∈
        ([⟨"s1", "A", 0, 0, some 5, none, none, none⟩] : List Supplier) ∧
      (3 : ℚ) ≤ Supplier.stockD ⟨"s1", "A", 0, 0, some 5, none, none, none⟩) ∧
    (⟨"s1", "A", 0, 0, some 5, none, none, none⟩ : Supplier) ∈
      filter_eligible_suppliers [⟨"s1", "A", 0, 0, some 5, none, none, none⟩] 3 :=
  ⟨⟨by simp, by norm_num [Supplier.stockD]⟩,
    (c4_filter_eligible [⟨"s1", "A", 0, 0, some 5, none, none, none⟩] 3).2.2.1
      ⟨"s1", "A", 0, 0, some 5, none, none, none⟩ (by simp)
      (by norm_num [Supplier.stockD])⟩

/-! ## Claim C1 — split plan -/

/-- Invariant of the `create_split_plan` loop: when the remaining quantity is
positive and it and every stock are whole numbers of hundredths (so that
`round(·, 2)` is exact), the produced allocations sum to at most the
remaining quantity, each is positive and within its supplier's stock, the
chosen suppliers form a sublist of the input, and at most one entry is
produced per input supplier. -/
theorem splitPlanAux_spec (l : List Supplier) (rem : ℚ) (hrem : 0 < rem)
    (hc : IsCent rem) (hstock : ∀ s ∈ l, IsCent s.stockD) :
    ((splitPlanAux l rem).map SplitEntry.allocated_tons).sum ≤ rem ∧
    (∀ e ∈ splitPlanAux l rem,
      0 < e.allocated_tons ∧ e.allocated_tons ≤ e.supplier.stockD) ∧
    ((splitPlanAux l rem).map SplitEntry.supplier).Sublist l ∧
    (splitPlanAux l rem).length ≤ l.length := by
  induction l generalizing rem with
  | nil =>
    simp only [splitPlanAux, List.map_nil, List.sum_nil, List.not_mem_nil,
      List.length_nil, le_refl, and_true]
    refine ⟨le_of_lt hrem, ?_, List.Sublist.refl _⟩
    intro e he
    exact he.elim
  | cons s rest ih =>
    have hcs : IsCent s.stockD := hstock s (List.mem_cons_self s rest)
    have hrest : ∀ t ∈ rest, IsCent t.stockD :=
      fun t ht => hstock t (List.mem_cons_of_mem s ht)
    by_cases hav : s.stockD ≤ 0
    · simp only [splitPlanAux, if_pos hav]
      obtain ⟨h1, h2, h3, h4⟩ := ih rem hrem hc hrest
      exact ⟨h1, h2, h3.cons s, h4.trans (Nat.le_succ _)⟩
    · push_neg at hav
      have halloc : 0 < min s.stockD rem := lt_min hav hrem
      have hcalloc : IsCent (min s.stockD rem) := isCent_min hcs hc
      have hround : round2 (min s.stockD rem) = min s.stockD rem :=
        round2_of_isCent hcalloc
      by_cases hdone : rem - min s.stockD rem ≤ 0
      · simp only [splitPlanAux, if_neg (not_le.mpr hav), if_pos halloc,
          if_pos hdone, List.map_cons, List.map_nil, List.sum_cons,
          List.sum_nil, List.mem_singleton, List.length_singleton]
        refine ⟨?_, ?_, ?_, ?_⟩
        · rw [hround]
          simp only [add_zero]
          exact min_le_right s.stockD rem
        · intro e he
          subst he
          exact ⟨by rw [hround]; exact halloc,
            by rw [hround]; exact min_le_left s.stockD rem⟩
        · exact (List.singleton_sublist.mpr (List.mem_cons_self s rest))
        · exact Nat.succ_le_succ (Nat.zero_le _)
      · push_neg at hdone
        have hc2 : IsCent (rem - min s.stockD rem) := isCent_sub hc hcalloc
        obtain ⟨h1, h2, h3, h4⟩ := ih (rem - min s.stockD rem) hdone hc2 hrest
        simp only [splitPlanAux, if_neg (not_le.mpr hav), if_pos halloc,
          if_neg (not_le.mpr hdone), List.map_cons, List.sum_cons,
          List.mem_cons, List.length_cons]
        refine ⟨?_, ?_, ?_, ?_⟩
        · rw [hround]
          linarith
        · intro e he
          rcases he with he | he
          · subst he
            exact ⟨by rw [hround]; exact halloc,
              by rw [hround]; exact min_le_left s.stockD rem⟩
          · exact h2 e he
        · exact h3.cons₂ s
        · exact Nat.succ_le_succ h4

/-- **C1** (counterexample): with one ranked supplier of stock `1` and a
required quantity of `0.035` tons, the plan allocates
`round(min(1, 0.035), 2) = round(0.035, 2) = 0.04` tons, so the sum of
`allocated_tons` (`0.04`) strictly exceeds the required quantity (`0.035`):
the claimed bounds fail because `allocated_tons` is the *rounded*
allocation. -/
theorem c1_counterexample :
    ((create_split_plan [⟨"s1", "A", 0, 0, some 1, some 0, none, none⟩]
        (7/200)).map SplitEntry.allocated_tons).sum = 1/25 ∧
    ¬ ((1/25 : ℚ) ≤ 7/200) := by
  constructor
  · norm_num [create_split_plan, splitPlanAux, List.take, Supplier.stockD,
      Supplier.priceD, round2, roundHalfEven, min_def]
  · norm_num

/-- **C1** (amended): `create_split_plan` walks the ranked sequence
allocating `min(stock, remaining)` to each of up to 3 leading suppliers with
positive stock, decrementing `remaining`, stopping once `remaining ≤ 0`;
provided the required quantity is positive and it and all stocks are whole
numbers of hundredths (so that rounding `allocated_tons` to 2 decimals is
exact), the sum of `allocated_tons` never exceeds the required quantity,
each entry's `allocated_tons` is positive and at most that supplier's stock,
entries follow the input order, and the plan has at most 3 entries.  (In
general the rounding can push an entry up to half a cent above these
bounds, or produce a zero allocation.) -/
theorem c1_split_plan (suppliers : List Supplier) (required : ℚ)
    (hreq : 0 < required) (hc : IsCent required)
    (hstock : ∀ s ∈ suppliers, IsCent s.stockD) :
    ((create_split_plan suppliers required).map SplitEntry.allocated_tons).sum
        ≤ required ∧
    (∀ e ∈ create_split_plan suppliers required,
      0 < e.allocated_tons ∧ e.allocated_tons ≤ e.supplier.stockD) ∧
    ((create_split_plan suppliers required).map SplitEntry.supplier).Sublist
        suppliers ∧
    (create_split_plan suppliers required).length ≤ 3 := by
  have h := splitPlanAux_spec (suppliers.take 3) required hreq hc
    (fun s hs => hstock s (List.mem_of_mem_take hs))
  refine ⟨h.1, h.2.1, ?_, ?_⟩
  · exact h.2.2.1.trans (List.take_sublist 3 suppliers)
  · refine le_trans h.2.2.2 ?_
    rw [List.length_take]
    exact min_le_left _ _

theorem c1_witness :
    (0 : ℚ) < 4 ∧
    ((create_split_plan
        [⟨"s1", "A", 0, 0, some 2, some 10, some 1, some 5⟩,
         ⟨"s2", "B", 0, 0, some 3, some 12, some 2, some 6⟩] 4).map
        SplitEntry.allocated_tons).sum ≤ 4 ∧
    (create_split_plan
        [⟨"s1", "A", 0, 0, some 2, some 10, some 1, some 5⟩,
         ⟨"s2", "B", 0, 0, some 3, some 12, some 2, some 6⟩] 4).length ≤ 3 := by
  have h := c1_split_plan
    [⟨"s1", "A", 0, 0, some 2, some 10, some 1, some 5⟩,
     ⟨"s2", "B", 0, 0, some 3, some 12, some 2, some 6⟩] 4
    (by norm_num) ⟨400, by norm_num⟩
    (by
      intro s hs
      simp only [List.mem_cons, List.not_mem_nil, or_false] at hs
      rcases hs with h | h <;> subst h
      · exact ⟨200, by norm_num [Supplier.stockD]⟩
      · exact ⟨300, by norm_num [Supplier.stockD]⟩)
  exact ⟨by norm_num, h.1, h.2.2.2⟩

/-! ## Claim C3 — ranking -/

theorem keyLE_trans : ∀ a b c : Supplier,
    keyLE a b = true → keyLE b c = true → keyLE a c = true := by
  intro a b c hab hbc
  simp only [keyLE, decide_eq_true_eq] at hab hbc ⊢
  exact le_trans hab hbc

theorem keyLE_total : ∀ a b : Supplier, (keyLE a b || keyLE b a) = true := by
  intro a b
  simp only [keyLE, Bool.or_eq_true, decide_eq_true_eq]
  exact le_total (rankKey a) (rankKey b)

/-- **C3**: `rank_suppliers` stably sorts ascending by the lexicographic
tuple `(distance_km, price_inr_per_ton, lead_time_days)`, missing values
ordered as `+∞`: the output is a permutation of the input, non-decreasing
in the tuple order, re-ranking is the identity on ranked output
(idempotence), any key-sorted sublist of the input keeps its relative
order (stability), and a supplier with a missing distance compares at
least as large as any supplier with a present distance. -/
theorem c3_rank_suppliers (l : List Supplier) :
    (rank_suppliers l).Perm l ∧
    (rank_suppliers l).Pairwise (fun a b => rankKey a ≤ rankKey b) ∧
    rank_suppliers (rank_suppliers l) = rank_suppliers l ∧
    (∀ c : List Supplier, c.Pairwise (fun a b => rankKey a ≤ rankKey b) →
      c.Sublist l → c.Sublist (rank_suppliers l)) ∧
    (∀ a b : Supplier, a.distance_km = none → b.distance_km ≠ none →
      rankKey b ≤ rankKey a) := by
  have hmissing : ∀ a b : Supplier, a.distance_km = none → b.distance_km ≠ none →
      rankKey b ≤ rankKey a := by
    intro a b ha hb
    rw [rankKey, rankKey, Prod.Lex.le_iff]
    left
    rw [ha]
    cases hbd : b.distance_km with
    | none => exact absurd hbd hb
    | some x =>
      simp only [toTop]
      exact WithTop.coe_lt_top x
  by_cases hl : l.isEmpty
  · rw [List.isEmpty_iff] at hl
    subst hl
    refine ⟨by simp [rank_suppliers], by simp [rank_suppliers], by simp [rank_suppliers],
      ?_, hmissing⟩
    intro c _ hc
    simpa [rank_suppliers] using hc
  · have hrank : rank_suppliers l = l.mergeSort keyLE := by
      rw [rank_suppliers, if_neg hl]
    have hsorted := List.sorted_mergeSort keyLE_trans keyLE_total l
    have hperm := List.mergeSort_perm l keyLE
    have hpw : (l.mergeSort keyLE).Pairwise (fun a b => rankKey a ≤ rankKey b) := by
      refine hsorted.imp ?_
      intro a b h
      simpa [keyLE] using h
    refine ⟨?_, ?_, ?_, ?_, hmissing⟩
    · rw [hrank]
      exact hperm
    · rw [hrank]
      exact hpw
    · rw [hrank]
      have hne : ¬ (l.mergeSort keyLE).isEmpty := by
        rw [List.isEmpty_iff] at hl ⊢
        intro hcon
        rw [hcon] at hperm
        exact hl hperm.symm.eq_nil
      rw [rank_suppliers, if_neg hne]
      exact List.mergeSort_of_sorted hsorted
    · intro c hcpw hcsub
      rw [hrank]
      refine List.sublist_mergeSort keyLE_trans keyLE_total ?_ hcsub
      refine hcpw.imp ?_
      intro a b h
      simpa [keyLE] using h

theorem c3_witness :
    (Supplier.distance_km ⟨"s1", "A", 0, 0, some 5, none, none, none⟩ = none ∧
      Supplier.distance_km ⟨"s2", "B", 0, 0, some 5, none, none, some 1⟩ ≠ none) ∧
    rankKey ⟨"s2", "B", 0, 0, some 5, none, none, some 1⟩ ≤
      rankKey ⟨"s1", "A", 0, 0, some 5, none, none, none⟩ :=
  ⟨⟨rfl, by simp⟩,
    (c3_rank_suppliers []).2.2.2.2 ⟨"s1", "A", 0, 0, some 5, none, none, none⟩
      ⟨"s2", "B", 0, 0, some 5, none, none, some 1⟩ rfl (by simp)⟩

/-! ## Claim C5 — cache TTL round-trip -/

theorem lookup_eraseKey {κ α : Type} [DecidableEq κ] (c : CacheMap κ α) (k : κ) :
    (eraseKey c k).lookup k = none := by
  induction c with
  | nil => rfl
  | cons p rest ih =>
    obtain ⟨a, e⟩ := p
    unfold eraseKey at ih ⊢
    by_cases h : a = k
    · rw [List.filter_cons, if_neg (by simp [h])]
      exact ih
    · rw [List.filter_cons, if_pos (by simp [h])]
      rw [List.lookup_cons, beq_eq_false_iff_ne.mpr (Ne.symm h)]
      exact ih

/-- Reduction of `cacheGet` when the key is bound to entry `e`. -/
theorem cacheGet_lookup_some {κ α : Type} [DecidableEq κ] (now : ℚ)
    (c : CacheMap κ α) (k : κ) (e : CacheEntry α) (hl : c.lookup k = some e) :
    cacheGet now c k =
      if e.expiry < now then (none, eraseKey c k)
      else (some ⟨e.data, e.cached_at, pyInt (now - e.cached_at), true⟩, c) := by
  unfold cacheGet
  rw [hl]

theorem cacheGet_none_lookup {κ α : Type} [DecidableEq κ] (now : ℚ)
    (c : CacheMap κ α) (k : κ) (h : (cacheGet now c k).1 = none) :
    ((cacheGet now c k).2).lookup k = none := by
  cases hl : c.lookup k with
  | none =>
    unfold cacheGet
    rw [hl]
    exact hl
  | some e =>
    rw [cacheGet_lookup_some now c k e hl] at h ⊢
    by_cases hexp : e.expiry < now
    · rw [if_pos hexp]
      exact lookup_eraseKey c k
    · rw [if_neg hexp] at h
      exact absurd h (by simp)

/-- **C5**: immediately after `set(k, v, ttl)` (no clock advance), `get(k)`
is a hit returning `v` with `age_seconds = 0`; at any time strictly past the
TTL, `get(k)` is a miss **and** the expired entry has been deleted from the
store by that read (lazy expiry); and any hit returned for `k` occurs at
most TTL seconds after the entry was stored — an entry older than its TTL
is never returned as a hit. -/
theorem c5_cache_ttl {κ α : Type} [DecidableEq κ] (k : κ) (v : α)
    (ttl_hours dflt now : ℚ) (c : CacheMap κ α) (httl : 0 < ttl_hours) :
    (cacheGet now (cacheSet dflt now v (some ttl_hours) c k) k).1 =
        some ⟨v, now, 0, true⟩ ∧
    (∀ t : ℚ, now + ttl_hours * 3600 < t →
      (cacheGet t (cacheSet dflt now v (some ttl_hours) c k) k).1 = none ∧
      ((cacheGet t (cacheSet dflt now v (some ttl_hours) c k) k).2).lookup k
        = none) ∧
    (∀ t : ℚ, ∀ h : CacheHit α,
      (cacheGet t (cacheSet dflt now v (some ttl_hours) c k) k).1 = some h →
      t - now ≤ ttl_hours * 3600) := by
  have hset : cacheSet dflt now v (some ttl_hours) c k
      = (k, ⟨v, now, now + ttl_hours * 3600⟩) :: eraseKey c k := by
    rw [cacheSet]
    simp [ne_of_gt httl]
  have hlook : (cacheSet dflt now v (some ttl_hours) c k).lookup k
      = some ⟨v, now, now + ttl_hours * 3600⟩ := by
    rw [hset, List.lookup_cons, beq_self_eq_true]
  have hred := fun t =>
    cacheGet_lookup_some t (cacheSet dflt now v (some ttl_hours) c k) k
      ⟨v, now, now + ttl_hours * 3600⟩ hlook
  refine ⟨?_, ?_, ?_⟩
  · rw [hred now]
    rw [if_neg (show ¬ now + ttl_hours * 3600 < now by linarith)]
    simp [pyInt]
  · intro t ht
    rw [hred t]
    rw [if_pos (show now + ttl_hours * 3600 < t from ht)]
    refine ⟨rfl, ?_⟩
    exact lookup_eraseKey (cacheSet dflt now v (some ttl_hours) c k) k
  · intro t h hhit
    rw [hred t] at hhit
    by_cases hexp : now + ttl_hours * 3600 < t
    · rw [if_pos hexp] at hhit
      exact absurd hhit (by simp)
    · linarith [not_lt.mp hexp]

theorem c5_witness :
    (0 : ℚ) < 1 ∧
    (cacheGet 0 (cacheSet 24 0 42 (some 1) ([] : CacheMap ℕ ℕ) 7) 7).1 =
      some ⟨42, 0, 0, true⟩ ∧
    (cacheGet 4000 (cacheSet 24 0 42 (some 1) ([] : CacheMap ℕ ℕ) 7) 7).1 = none :=
  ⟨by norm_num,
    (c5_cache_ttl 7 42 1 24 0 [] (by norm_num)).1,
    ((c5_cache_ttl 7 42 1 24 0 [] (by norm_num)).2.1 4000 (by norm_num)).1⟩

/-! ## Claim C2 — unknown material on the search path -/

/-- **C2**: when `search_suppliers` is invoked with a material id that is not
in `MATERIAL_FILE_MAP` (and neither the module-level data cache nor the
response cache holds a matching entry), the operation fails with the
material-not-found error (the `ValueError("Unknown material_id: ...")`,
surfaced as the client-error status 400), and no entry is stored in the
response cache for that request: the response cache is exactly the
post-`get` store, which has no binding for the request's key, and the data
cache is unchanged. -/
theorem c2_unknown_material (dist : ℚ → ℚ → ℚ → ℚ → ℚ) (useMock : Bool)
    (request_id provider : String) (cttl dttl now : ℚ)
    (files : String → FileResult) (dataCache : List (String × CatalogData))
    (respCache : CacheMap SearchKey SupplierBundle) (req : SearchRequest)
    (hmat : MATERIAL_FILE_MAP.lookup (pyLower req.material) = none)
    (hdc : dataCache.lookup (pyLower req.material) = none)
    (hmiss : (cacheGet now respCache (searchCacheKey req)).1 = none) :
    (search_suppliers dist useMock request_id provider cttl dttl now files
        dataCache respCache req).1 =
      .error (.materialNotFound ("Unknown material_id: " ++ req.material)) ∧
    (SearchError.materialNotFound ("Unknown material_id: " ++ req.material)).status
      = 400 ∧
    400 ≤ (SearchError.materialNotFound
      ("Unknown material_id: " ++ req.material)).status ∧
    (SearchError.materialNotFound
      ("Unknown material_id: " ++ req.material)).status < 500 ∧
    (search_suppliers dist useMock request_id provider cttl dttl now files
        dataCache respCache req).2.1 =
      (cacheGet now respCache (searchCacheKey req)).2 ∧
    ((search_suppliers dist useMock request_id provider cttl dttl now files
        dataCache respCache req).2.1).lookup (searchCacheKey req) = none ∧
    (search_suppliers dist useMock request_id provider cttl dttl now files
        dataCache respCache req).2.2 = dataCache := by
  have hload : load_supplier_data files dataCache req.material =
      .error (.materialNotFound ("Unknown material_id: " ++ req.material)) := by
    unfold load_supplier_data
    simp only [hdc, hmat]
  have hsm : ∀ rc : CacheMap SearchKey SupplierBundle,
      search_suppliers_miss dist request_id provider cttl dttl now files
        dataCache rc req =
      (.error (.materialNotFound ("Unknown material_id: " ++ req.material)),
        rc, dataCache) := by
    intro rc
    unfold search_suppliers_miss
    simp only [hload]
  have hmain : search_suppliers dist useMock request_id provider cttl dttl now
      files dataCache respCache req =
      (.error (.materialNotFound ("Unknown material_id: " ++ req.material)),
        (cacheGet now respCache (searchCacheKey req)).2, dataCache) := by
    unfold search_suppliers
    simp only [hmiss]
    exact hsm _
  refine ⟨by rw [hmain], rfl, by norm_num [SearchError.status],
    by norm_num [SearchError.status], by rw [hmain], ?_, by rw [hmain]⟩
  rw [hmain]
  exact cacheGet_none_lookup now respCache (searchCacheKey req) hmiss

theorem c2_witness :
    (MATERIAL_FILE_MAP.lookup (pyLower "steel") = none ∧
      (([] : List (String × CatalogData)).lookup (pyLower "steel") = none) ∧
      (cacheGet 0 ([] : CacheMap SearchKey SupplierBundle)
        (searchCacheKey ⟨⟨0, 0⟩, "steel", 5⟩)).1 = none) ∧
    (search_suppliers (fun _ _ _ _ => 0) true "req-1" "mock-sandbox" 24 24 0
        (fun _ => FileResult.missing) [] [] ⟨⟨0, 0⟩, "steel", 5⟩).1 =
      .error (.materialNotFound "Unknown material_id: steel") :=
  ⟨⟨by decide, rfl, rfl⟩,
    (c2_unknown_material (fun _ _ _ _ => 0) true "req-1" "mock-sandbox" 24 24 0
      (fun _ => FileResult.missing) [] [] ⟨⟨0, 0⟩, "steel", 5⟩
      (by decide) rfl rfl).1⟩

/-! ## Claim C9 — haversine distance -/

/-- **C9**: `haversine_distance` — the haversine great-circle formula on a
sphere of radius 6371 km over degree inputs converted to radians, rounded
to 2 decimal places — is symmetric in its two points, and zero on the
diagonal. -/
theorem c9_haversine_symm_diag (lat1 lon1 lat2 lon2 : ℝ) :
    haversine_distance lat1 lon1 lat2 lon2 = haversine_distance lat2 lon2 lat1 lon1 ∧
    haversine_distance lat1 lon1 lat1 lon1 = 0 := by
  constructor
  · have hs1 : Real.sin (radians (lat1 - lat2) / 2)
        = -Real.sin (radians (lat2 - lat1) / 2) := by
      rw [show radians (lat1 - lat2) / 2 = -(radians (lat2 - lat1) / 2) by
        unfold radians; ring]
      rw [Real.sin_neg]
    have hs2 : Real.sin (radians (lon1 - lon2) / 2)
        = -Real.sin (radians (lon2 - lon1) / 2) := by
      rw [show radians (lon1 - lon2) / 2 = -(radians (lon2 - lon1) / 2) by
        unfold radians; ring]
      rw [Real.sin_neg]
    have ha :
        Real.sin (radians (lat2 - lat1) / 2) * Real.sin (radians (lat2 - lat1) / 2) +
          Real.cos (radians lat1) * Real.cos (radians lat2) *
            Real.sin (radians (lon2 - lon1) / 2) * Real.sin (radians (lon2 - lon1) / 2)
        = Real.sin (radians (lat1 - lat2) / 2) * Real.sin (radians (lat1 - lat2) / 2) +
          Real.cos (radians lat2) * Real.cos (radians lat1) *
            Real.sin (radians (lon1 - lon2) / 2) * Real.sin (radians (lon1 - lon2) / 2) := by
      rw [hs1, hs2]
      ring
    simp only [haversine_distance]
    rw [ha]
  · simp only [haversine_distance, sub_self]
    rw [show radians 0 = 0 by unfold radians; ring]
    norm_num [Real.sqrt_one, atan2, round2R, roundHalfEvenR]

end Procurement
